import Mathlib

/-!
Verification of the FlyZed crash-game round engine.

Shallow embedding of the round engine in `src/gameEngine.js` (the active,
global-round revision exported at the top of that file) together with the
`roundStarted` broadcast payload built in `src/server.js`
(`attachEngineListeners`).

Modelling conventions:
* JavaScript numbers used for money and multipliers are modelled as `ℚ`;
  the special values `NaN`/`±Infinity`, which matter for bet validation,
  are captured by the `JSNum` type.
* `Number(x.toFixed(2))` is modelled by `round2` (round half towards `+∞`
  at two decimals, which agrees with JS on the non-negative values the
  engine produces).
* Timestamps (`Date.now()`) are integers in milliseconds and are passed
  explicitly as a `now` argument.
* `setTimeout` handles are modelled by a `Bool` flag recording whether the
  timer is armed; `clearTimeout` sets the flag to `false`.
* `Math.random()` draws and `crypto.randomBytes` output are passed in as
  explicit arguments (`r`, `u`, `seed`); SHA-256 is an abstract parameter
  `hash : String → String` since only the round-trip carrying of
  seed/hash matters to the claims.
* JS exceptions thrown by `joinRound`/`cashOut` become `Except` errors;
  a throw happens before any mutation, so the state component returned
  alongside an error is the untouched input state, exactly as in the
  source where the checks precede every write.
-/

namespace FlyZed

/-- Model of `Number(x.toFixed(2))` on the rationals: round to two decimals. -/
def round2 (q : ℚ) : ℚ := ((⌊q * 100 + 1/2⌋ : ℤ) : ℚ) / 100

/-- JavaScript number values relevant to the engine's validation logic. -/
inductive JSNum where
  | nan
  | posInf
  | negInf
  | fin (q : ℚ)
deriving DecidableEq

/-- JS falsiness of a number: `!x` is true exactly for `0`, `-0` and `NaN`. -/
def jsFalsy : JSNum → Bool
  | .nan => true
  | .posInf => false
  | .negInf => false
  | .fin q => decide (q = 0)

/-- JS `isNaN(x)` for a number argument. -/
def jsIsNaN : JSNum → Bool
  | .nan => true
  | _ => false

/-- JS comparison `x <= 0` (false for `NaN` and `+Infinity`). -/
def jsLeZero : JSNum → Bool
  | .nan => false
  | .posInf => false
  | .negInf => true
  | .fin q => decide (q ≤ 0)

/-- Round status: the engine only ever stores `'running'` or `'crashed'`. -/
inductive RoundStatus where
  | running
  | crashed
deriving DecidableEq

/-- One player's position in the round (`currentRound.players` map values). -/
structure PlayerPosition where
  betAmount : JSNum
  cashedOut : Bool
  payout : Option JSNum := none
  cashedAt : Option ℤ := none
  cashedMultiplier : Option ℚ := none
deriving DecidableEq

/-- The global round object created by `createNewRound`. -/
structure Round where
  roundId : String
  crashPoint : ℚ
  serverSeed : String
  serverSeedHash : String
  status : RoundStatus
  startedAt : ℤ
  endedAt : Option ℤ
  locked : Bool
  players : List (String × PlayerPosition)
  timer : Bool
  nextRoundTimer : Bool
deriving DecidableEq

/-- The engine's module-level mutable state (`currentRound`, `disposed`). -/
structure EngineState where
  currentRound : Option Round
  disposed : Bool
deriving DecidableEq

/-- Model of `Map.prototype.set`: replace the entry for `k` or append a new one. -/
def mapSet (l : List (String × PlayerPosition)) (k : String) (v : PlayerPosition) :
    List (String × PlayerPosition) :=
  match l with
  | [] => [(k, v)]
  | (k', v') :: rest => if k' = k then (k, v) :: rest else (k', v') :: mapSet rest k v

/-- The function `generateCrashPoint` with its two `Math.random()` draws `r` and `u`. -/
def generateCrashPoint (r u : ℚ) : ℚ :=
  if r < 7/10 then round2 (11/10 + u * (6/10)) else round2 (2 + u * 3)

/-- The function `crashDelayFromPoint`: `Math.max(100, Math.floor((crashPoint - 1) * 1000))`. -/
def crashDelayFromPoint (crashPoint : ℚ) : ℤ :=
  max 100 ⌊(crashPoint - 1) * 1000⌋

/-- The function `computeMultiplier(startedAt)` evaluated at wall-clock time `now`. -/
def computeMultiplier (startedAt now : ℤ) : ℚ :=
  round2 (1 + (((now - startedAt : ℤ) : ℚ) / 1000) * 1)

/-- The function `computePayout`: `Number((betAmount * multiplier).toFixed(2))`, including
the JS behaviour on non-finite bet amounts. -/
def computePayout (betAmount : JSNum) (multiplier : ℚ) : JSNum :=
  match betAmount with
  | .fin b => .fin (round2 (b * multiplier))
  | .nan => .nan
  | .posInf =>
      if 0 < multiplier then .posInf else if multiplier < 0 then .negInf else .nan
  | .negInf =>
      if 0 < multiplier then .negInf else if multiplier < 0 then .posInf else .nan

/-- The function `markRoundCrashed(round)`: crash once, clear the crash timer, and arm the
next-round timer unless already armed or the engine is disposed. -/
def markRoundCrashed (disposed : Bool) (round : Round) (now : ℤ) : Round :=
  if round.status = .crashed then round
  else if ¬ round.nextRoundTimer ∧ ¬ disposed then
    { round with
        status := .crashed
        locked := true
        endedAt := some now
        timer := false
        nextRoundTimer := true }
  else
    { round with
        status := .crashed
        locked := true
        endedAt := some now
        timer := false }

/-- The function `createNewRound()`: inputs are the fresh `roundId`, the two
`Math.random()` draws, the random seed string, and the hash function. -/
def createNewRound (hash : String → String) (st : EngineState) (now : ℤ)
    (roundId : String) (r u : ℚ) (seed : String) : EngineState × Option Round :=
  if st.disposed then (st, none)
  else
    let round : Round := {
      roundId := roundId
      crashPoint := generateCrashPoint r u
      serverSeed := seed
      serverSeedHash := hash seed
      status := .running
      startedAt := now
      endedAt := none
      locked := false
      players := []
      timer := true
      nextRoundTimer := false }
    ({ st with currentRound := some round }, some round)

/-- The snapshot returned by `getRoundStatus` when a round exists. -/
structure StatusReport where
  roundId : String
  status : RoundStatus
  multiplier : ℚ
  startedAt : ℤ
  endedAt : Option ℤ
  serverSeedHash : String
deriving DecidableEq

/-- The function `getRoundStatus()`; a `none` report models the waiting-status reply. -/
def getRoundStatus (st : EngineState) (now : ℤ) :
    EngineState × Option StatusReport :=
  match st.currentRound with
  | none => (st, none)
  | some round =>
    if round.status = .running then
      let m := computeMultiplier round.startedAt now
      if round.crashPoint ≤ m then
        let round' := markRoundCrashed st.disposed round now
        ({ st with currentRound := some round' },
         some { roundId := round'.roundId, status := round'.status,
                multiplier := round'.crashPoint, startedAt := round'.startedAt,
                endedAt := round'.endedAt, serverSeedHash := round'.serverSeedHash })
      else
        (st, some { roundId := round.roundId, status := round.status,
                    multiplier := m, startedAt := round.startedAt,
                    endedAt := round.endedAt,
                    serverSeedHash := round.serverSeedHash })
    else
      (st, some { roundId := round.roundId, status := round.status,
                  multiplier := round.crashPoint, startedAt := round.startedAt,
                  endedAt := round.endedAt,
                  serverSeedHash := round.serverSeedHash })

/-- The typed failures thrown by `joinRound`/`cashOut`. -/
inductive EngineError where
  | roundNotActive
  | playerIdRequired
  | invalidBetAmount
  | alreadyJoined
  | playerNotInRound
  | alreadyCashedOut
deriving DecidableEq

/-- Successful `joinRound` reply. -/
structure JoinResult where
  roundId : String
  serverSeedHash : String
  startedAt : ℤ
deriving DecidableEq

/-- The function `joinRound(playerId, betAmount)`. -/
def joinRound (st : EngineState) (playerId : String) (betAmount : JSNum) :
    EngineState × Except EngineError JoinResult :=
  match st.currentRound with
  | none => (st, .error .roundNotActive)
  | some round =>
    if round.status ≠ .running then (st, .error .roundNotActive)
    else if playerId = "" then (st, .error .playerIdRequired)
    else if jsFalsy betAmount ∨ jsIsNaN betAmount ∨ jsLeZero betAmount then
      (st, .error .invalidBetAmount)
    else if (round.players.lookup playerId).isSome then (st, .error .alreadyJoined)
    else
      ({ st with currentRound := some { round with
          players := mapSet round.players playerId
            { betAmount := betAmount, cashedOut := false } } },
       .ok { roundId := round.roundId, serverSeedHash := round.serverSeedHash,
             startedAt := round.startedAt })

/-- The `cashOut` settlement reply. -/
structure CashOutResult where
  win : Bool
  payout : JSNum
  multiplier : ℚ
deriving DecidableEq

/-- The function `cashOut(playerId)` at wall-clock time `now`. -/
def cashOut (st : EngineState) (playerId : String) (now : ℤ) :
    EngineState × Except EngineError CashOutResult :=
  match st.currentRound with
  | none => (st, .error .roundNotActive)
  | some round =>
    match round.players.lookup playerId with
    | none => (st, .error .playerNotInRound)
    | some player =>
      if player.cashedOut then (st, .error .alreadyCashedOut)
      else
        let m := computeMultiplier round.startedAt now
        if round.crashPoint ≤ m ∨ round.status ≠ .running then
          let round' :=
            if round.status ≠ .crashed then markRoundCrashed st.disposed round now
            else round
          ({ st with currentRound := some round' },
           .ok { win := false, payout := .fin 0, multiplier := round'.crashPoint })
        else
          let m2 := round2 m
          let payout := computePayout player.betAmount m2
          let player' := { player with
            cashedOut := true, payout := some payout,
            cashedAt := some now, cashedMultiplier := some m2 }
          ({ st with currentRound := some { round with
              players := mapSet round.players playerId player' } },
           .ok { win := true, payout := payout, multiplier := m2 })

/-! ## Broadcast payload built in `src/server.js` (`attachEngineListeners`) -/

/-- JSON values appearing in the socket broadcast payloads. -/
inductive JsonVal where
  | str (s : String)
  | num (q : ℚ)
  | int (n : ℤ)
deriving DecidableEq

/-- The object literal passed to `io.emit('roundStarted', …)` in
`src/server.js`: `{roundId, commitIdx, serverSeedHash, crashPoint,
startedAt}`. The engine's rounds carry no `commitIdx` field, so that entry
is `undefined` and dropped from the serialized payload; it is modelled by
an optional argument. -/
def roundStartedPayload (r : Round) (commitIdx : Option ℤ) :
    List (String × JsonVal) :=
  [("roundId", .str r.roundId)]
  ++ (match commitIdx with
      | some i => [("commitIdx", .int i)]
      | none => [])
  ++ [("serverSeedHash", .str r.serverSeedHash),
      ("crashPoint", .num r.crashPoint),
      ("startedAt", .int r.startedAt)]

/-! ## Arithmetic helper lemmas about the two-decimal rounding -/

/-- Rounding `round2` is idempotent: re-applying `toFixed(2)` changes nothing. -/
theorem round2_idem (q : ℚ) : round2 (round2 q) = round2 q := by
  unfold round2
  have h : (((⌊q * 100 + 1/2⌋ : ℤ) : ℚ) / 100) * 100 + 1/2
      = (⌊q * 100 + 1/2⌋ : ℚ) + 1/2 := by
    field_simp
  rw [h, Int.floor_int_add]
  norm_num

/-- Rounding `round2` is monotone. -/
theorem round2_mono {a b : ℚ} (h : a ≤ b) : round2 a ≤ round2 b := by
  unfold round2
  have h1 : (⌊a * 100 + 1/2⌋ : ℤ) ≤ ⌊b * 100 + 1/2⌋ := by
    apply Int.floor_le_floor
    linarith
  have h2 : ((⌊a * 100 + 1/2⌋ : ℤ) : ℚ) ≤ ((⌊b * 100 + 1/2⌋ : ℤ) : ℚ) := by
    exact_mod_cast h1
  linarith

/-! ## Concrete sample states used by witnesses and counterexamples -/

/-- A concrete stand-in for SHA-256 (the claims only use that the same
function is applied at creation and reveal). -/
def sampleHash (s : String) : String := String.append "sha256:" s

/-- The engine state right after module load, before any round. -/
def emptyState : EngineState := { currentRound := none, disposed := false }

/-- A running round with crash point `1.50`, started at time `0`, with
player `"A"` holding a bet of `10` and player `"B"` holding a bet of `5`. -/
def sampleRound : Round := {
  roundId := "round-1"
  crashPoint := 3/2
  serverSeed := "seed-1"
  serverSeedHash := sampleHash "seed-1"
  status := .running
  startedAt := 0
  endedAt := none
  locked := false
  players := [("A", { betAmount := .fin 10, cashedOut := false }),
              ("B", { betAmount := .fin 5, cashedOut := false })]
  timer := true
  nextRoundTimer := false }

/-- Engine state holding `sampleRound`. -/
def sampleState : EngineState := { currentRound := some sampleRound, disposed := false }

/-- A state whose only player `"A"` has already cashed out. -/
def cashedState : EngineState := {
  currentRound := some { sampleRound with
    players := [("A", { betAmount := .fin 10, cashedOut := true })] }
  disposed := false }

/-! ## Claims -/

/-- C1: the claim says every round creation consumes the earliest available
SeedCommit and derives `crashPoint` (and `serverSeed`/`serverSeedHash`)
from that commit's pre-committed seed. The code does the opposite:
`createNewRound` has no commit input at all — its `crashPoint` comes from
fresh `Math.random()` draws and its seed from fresh random bytes. Two
creations from the identical engine state (hence an identical set of
available commits) yield different crash points when the random draws
differ, so `crashPoint` is not a function of any commit. -/
theorem crashPoint_ignores_seed_commits :
    (createNewRound sampleHash emptyState 0 "r1" (1/2) 0 "s1").2.map Round.crashPoint
      = some (11/10)
    ∧ (createNewRound sampleHash emptyState 0 "r1" (1/2) (1/2) "s1").2.map Round.crashPoint
      = some (7/5)
    ∧ (11/10 : ℚ) ≠ 7/5 := by
  refine ⟨?_, ?_, by norm_num⟩ <;>
    norm_num [createNewRound, emptyState, generateCrashPoint, round2]

/-- C2: the claim says the `RoundStarted` broadcast payload carries only
`roundId`, `commitIndex`, `serverSeedHash` and `startedAt` and never
includes `crashPoint`. The payload built in `src/server.js`
(`io.emit('roundStarted', …)`) contains a `crashPoint` entry holding the
round's crash point, for every round and commit index. -/
theorem roundStarted_broadcast_includes_crashPoint
    (r : Round) (commitIdx : Option ℤ) :
    ("crashPoint", JsonVal.num r.crashPoint) ∈ roundStartedPayload r commitIdx := by
  cases commitIdx <;> simp [roundStartedPayload]

/-- C8: `computeMultiplier` at query time `t` equals
`1 + elapsedSeconds × 1.0` rounded to two decimals, and for a fixed
`startedAt` it is monotonically non-decreasing as `t` advances. -/
theorem computeMultiplier_formula_and_monotone (startedAt t1 t2 : ℤ) :
    computeMultiplier startedAt t1
      = round2 (1 + (((t1 - startedAt : ℤ) : ℚ) / 1000) * 1)
    ∧ (t1 ≤ t2 → computeMultiplier startedAt t1 ≤ computeMultiplier startedAt t2) := by
  constructor
  · rfl
  · intro h
    apply round2_mono
    have : ((t1 - startedAt : ℤ) : ℚ) ≤ ((t2 - startedAt : ℤ) : ℚ) := by
      exact_mod_cast sub_le_sub_right h startedAt
    linarith

/-- C8 witness: at `startedAt = 0`, the multiplier at `t = 500` is below the
multiplier at `t = 1500`. -/
theorem computeMultiplier_monotone_witness :
    computeMultiplier 0 500 ≤ computeMultiplier 0 1500 :=
  (computeMultiplier_formula_and_monotone 0 500 1500).2 (by norm_num)

/-! ## Preservation of the seed fields by the engine operations -/

/-- The function `markRoundCrashed` never touches `serverSeed`, `serverSeedHash` or
`crashPoint`. -/
theorem markRoundCrashed_preserves_seed (d : Bool) (round : Round) (now : ℤ) :
    (markRoundCrashed d round now).serverSeed = round.serverSeed
    ∧ (markRoundCrashed d round now).serverSeedHash = round.serverSeedHash
    ∧ (markRoundCrashed d round now).crashPoint = round.crashPoint := by
  unfold markRoundCrashed
  split
  · exact ⟨rfl, rfl, rfl⟩
  · split <;> exact ⟨rfl, rfl, rfl⟩

/-- The function `joinRound` never touches `serverSeed` or `serverSeedHash` of any round
held in the state. -/
theorem joinRound_preserves_seed (st : EngineState) (pid : String) (bet : JSNum)
    (r r' : Round) (h : st.currentRound = some r)
    (h' : (joinRound st pid bet).1.currentRound = some r') :
    r'.serverSeed = r.serverSeed ∧ r'.serverSeedHash = r.serverSeedHash := by
  unfold joinRound at h'
  rw [h] at h'
  dsimp only at h'
  split at h'
  case isTrue =>
    rw [h] at h'
    injection h' with h2
    subst h2
    exact ⟨rfl, rfl⟩
  split at h'
  case isTrue =>
    rw [h] at h'
    injection h' with h2
    subst h2
    exact ⟨rfl, rfl⟩
  split at h'
  case isTrue =>
    rw [h] at h'
    injection h' with h2
    subst h2
    exact ⟨rfl, rfl⟩
  split at h'
  case isTrue =>
    rw [h] at h'
    injection h' with h2
    subst h2
    exact ⟨rfl, rfl⟩
  case isFalse =>
    injection h' with h2
    subst h2
    exact ⟨rfl, rfl⟩

/-- The function `cashOut` never touches `serverSeed` or `serverSeedHash` of any round
held in the state. -/
theorem cashOut_preserves_seed (st : EngineState) (pid : String) (now : ℤ)
    (r r' : Round) (h : st.currentRound = some r)
    (h' : (cashOut st pid now).1.currentRound = some r') :
    r'.serverSeed = r.serverSeed ∧ r'.serverSeedHash = r.serverSeedHash := by
  unfold cashOut at h'
  rw [h] at h'
  dsimp only at h'
  rcases hl : r.players.lookup pid with _ | player <;> rw [hl] at h'
  · dsimp only at h'
    rw [h] at h'
    injection h' with h2
    subst h2
    exact ⟨rfl, rfl⟩
  · dsimp only at h'
    split at h'
    case isTrue =>
      rw [h] at h'
      injection h' with h2
      subst h2
      exact ⟨rfl, rfl⟩
    split at h'
    case isTrue =>
      injection h' with h2
      subst h2
      split
      · exact ⟨(markRoundCrashed_preserves_seed st.disposed r now).1,
               (markRoundCrashed_preserves_seed st.disposed r now).2.1⟩
      · exact ⟨rfl, rfl⟩
    case isFalse =>
      injection h' with h2
      subst h2
      exact ⟨rfl, rfl⟩

/-- C7: the fairness round-trip law. Any round produced by `createNewRound`
has `serverSeedHash = hash serverSeed` — the hash is computed from the seed
at creation — and `markRoundCrashed`, `joinRound` and `cashOut` all carry
both fields unchanged, so the seed a crashed round reveals still hashes to
the `serverSeedHash` the round started with. -/
theorem fairness_roundtrip (hash : String → String) (st : EngineState)
    (now : ℤ) (rid : String) (r u : ℚ) (seed : String) (round : Round)
    (hc : (createNewRound hash st now rid r u seed).2 = some round) :
    round.serverSeedHash = hash round.serverSeed
    ∧ (∀ d now2, (markRoundCrashed d round now2).serverSeed = round.serverSeed
        ∧ (markRoundCrashed d round now2).serverSeedHash = round.serverSeedHash)
    ∧ (∀ st' pid bet r', st'.currentRound = some round →
        (joinRound st' pid bet).1.currentRound = some r' →
        r'.serverSeed = round.serverSeed ∧ r'.serverSeedHash = round.serverSeedHash)
    ∧ (∀ st' pid now2 r', st'.currentRound = some round →
        (cashOut st' pid now2).1.currentRound = some r' →
        r'.serverSeed = round.serverSeed ∧ r'.serverSeedHash = round.serverSeedHash) := by
  refine ⟨?_, ?_, ?_, ?_⟩
  · unfold createNewRound at hc
    split at hc
    · cases hc
    · simp only [Option.some.injEq] at hc
      subst hc
      rfl
  · intro d now2
    exact ⟨(markRoundCrashed_preserves_seed d round now2).1,
           (markRoundCrashed_preserves_seed d round now2).2.1⟩
  · intro st' pid bet r' h h'
    exact joinRound_preserves_seed st' pid bet round r' h h'
  · intro st' pid now2 r' h h'
    exact cashOut_preserves_seed st' pid now2 round r' h h'

/-- The concrete round `createNewRound` builds from `emptyState` with seed
`"s1"` and random draws `(1/2, 0)`. -/
def createdSampleRound : Round := {
  roundId := "r1"
  crashPoint := 11/10
  serverSeed := "s1"
  serverSeedHash := sampleHash "s1"
  status := .running
  startedAt := 0
  endedAt := none
  locked := false
  players := []
  timer := true
  nextRoundTimer := false }

/-- C7 witness: the concrete round created from `emptyState` with seed
`"s1"` satisfies the round-trip law. -/
theorem fairness_roundtrip_witness :
    createdSampleRound.serverSeedHash = sampleHash createdSampleRound.serverSeed :=
  (fairness_roundtrip sampleHash emptyState 0 "r1" (1/2) 0 "s1" createdSampleRound
    (by norm_num [createNewRound, emptyState, generateCrashPoint, round2,
                  createdSampleRound, sampleHash])).1

/-- The function `markRoundCrashed` is the identity on an already-crashed round. -/
theorem markRoundCrashed_of_crashed {round : Round}
    (h : round.status = .crashed) (d : Bool) (now : ℤ) :
    markRoundCrashed d round now = round := by
  unfold markRoundCrashed
  rw [h]
  simp

/-- After any `markRoundCrashed` call the round's status is `crashed`. -/
theorem markRoundCrashed_status (d : Bool) (round : Round) (now : ℤ) :
    (markRoundCrashed d round now).status = .crashed := by
  unfold markRoundCrashed
  split
  · assumption
  · split <;> rfl

/-- C6: the RUNNING → CRASHED transition is idempotent and exactly-once.
A first trigger on a running round (next-round timer not yet armed, engine
not disposed) sets `status = CRASHED`, sets `endedAt = now`, cancels the
crash timer and arms the next-round timer; a trigger on an already-crashed
round is the identity; and two consecutive triggers collapse to one. -/
theorem markRoundCrashed_exactly_once (d : Bool) (round : Round) (now : ℤ) :
    (round.status = .running → d = false → round.nextRoundTimer = false →
      markRoundCrashed d round now
        = { round with
              status := .crashed
              locked := true
              endedAt := some now
              timer := false
              nextRoundTimer := true })
    ∧ (round.status = .crashed → markRoundCrashed d round now = round)
    ∧ (∀ d' now', markRoundCrashed d' (markRoundCrashed d round now) now'
        = markRoundCrashed d round now) := by
  refine ⟨?_, ?_, ?_⟩
  · intro hs hd ht
    unfold markRoundCrashed
    rw [hs]
    simp [ht, hd]
  · intro hs
    exact markRoundCrashed_of_crashed hs d now
  · intro d' now'
    exact markRoundCrashed_of_crashed (markRoundCrashed_status d round now) d' now'

/-- C6 witness: the first trigger on `sampleRound` at time `700` performs
the full transition, and a second trigger on the result is a no-op. -/
theorem markRoundCrashed_exactly_once_witness :
    markRoundCrashed false sampleRound 700
      = { sampleRound with
            status := .crashed
            locked := true
            endedAt := some 700
            timer := false
            nextRoundTimer := true } :=
  (markRoundCrashed_exactly_once false sampleRound 700).1 rfl rfl rfl

/-- Looking up the key just written by `mapSet` returns the new value. -/
theorem lookup_mapSet_self (l : List (String × PlayerPosition)) (k : String)
    (v : PlayerPosition) : (mapSet l k v).lookup k = some v := by
  induction l with
  | nil => simp [mapSet, List.lookup]
  | cons hd tl ih =>
    obtain ⟨k', v'⟩ := hd
    by_cases hk : k' = k
    · subst hk
      simp [mapSet, List.lookup]
    · have hbeq : (k == k') = false :=
        beq_eq_false_iff_ne.mpr fun hcontra => hk hcontra.symm
      simp [mapSet, hk, List.lookup, hbeq, ih]

/-- C9: whenever `joinRound` or `cashOut` returns a typed failure, the engine
state — the round, its player map and every field — is left exactly as it
was: in the source every `throw` happens before any write. -/
theorem typed_failures_leave_state_unchanged (st : EngineState) (pid : String)
    (bet : JSNum) (now : ℤ) (e : EngineError) :
    ((joinRound st pid bet).2 = .error e → (joinRound st pid bet).1 = st)
    ∧ ((cashOut st pid now).2 = .error e → (cashOut st pid now).1 = st) := by
  constructor
  · intro h
    unfold joinRound at h ⊢
    generalize hcr : st.currentRound = cr at h ⊢
    cases cr with
    | none => rfl
    | some r =>
      dsimp only at h ⊢
      by_cases c1 : r.status ≠ .running
      · rw [if_pos c1]
      · rw [if_neg c1] at h ⊢
        by_cases c2 : pid = ""
        · rw [if_pos c2]
        · rw [if_neg c2] at h ⊢
          by_cases c3 : jsFalsy bet = true ∨ jsIsNaN bet = true ∨ jsLeZero bet = true
          · rw [if_pos c3]
          · rw [if_neg c3] at h ⊢
            by_cases c4 : (List.lookup pid r.players).isSome = true
            · rw [if_pos c4]
            · rw [if_neg c4] at h
              exact Except.noConfusion h
  · intro h
    unfold cashOut at h ⊢
    generalize hcr : st.currentRound = cr at h ⊢
    cases cr with
    | none => rfl
    | some r =>
      dsimp only at h ⊢
      generalize hpl : List.lookup pid r.players = pl at h ⊢
      cases pl with
      | none => rfl
      | some player =>
        dsimp only at h ⊢
        by_cases c1 : player.cashedOut = true
        · rw [if_pos c1]
        · rw [if_neg c1] at h ⊢
          by_cases c2 : r.crashPoint ≤ computeMultiplier r.startedAt now
              ∨ r.status ≠ .running
          · rw [if_pos c2] at h
            exact Except.noConfusion h
          · rw [if_neg c2] at h
            exact Except.noConfusion h

/-- C9 witness: `joinRound` with a zero bet on the sample round fails with
`InvalidBetAmount` and leaves the state untouched. -/
theorem typed_failures_witness :
    (joinRound sampleState "P" (JSNum.fin 0)).1 = sampleState :=
  (typed_failures_leave_state_unchanged sampleState "P" (JSNum.fin 0) 0
      .invalidBetAmount).1
    (by norm_num +decide [joinRound, sampleState, sampleRound, jsFalsy, jsIsNaN,
          jsLeZero])

/-- C5: for a player of the current round who has not cashed out, when the
round is RUNNING and the computed multiplier `m` is below the crash point,
`cashOut` latches `cashedOut := true`, records
`payout = round2 (betAmount * m)` together with the cash-out time and
multiplier, and returns `{win := true, payout, multiplier := m}`. -/
theorem cashOut_win_settlement (st : EngineState) (pid : String) (now : ℤ)
    (r : Round) (pos : PlayerPosition) (b : ℚ)
    (h : st.currentRound = some r) (hs : r.status = .running)
    (hp : r.players.lookup pid = some pos) (hco : pos.cashedOut = false)
    (hb : pos.betAmount = .fin b)
    (hm : computeMultiplier r.startedAt now < r.crashPoint) :
    cashOut st pid now
      = ({ st with currentRound := some { r with
            players := mapSet r.players pid { pos with
              cashedOut := true
              payout := some (.fin (round2 (b * computeMultiplier r.startedAt now)))
              cashedAt := some now
              cashedMultiplier := some (computeMultiplier r.startedAt now) } } },
         .ok { win := true
               payout := .fin (round2 (b * computeMultiplier r.startedAt now))
               multiplier := computeMultiplier r.startedAt now }) := by
  have hid : round2 (computeMultiplier r.startedAt now)
      = computeMultiplier r.startedAt now := by
    unfold computeMultiplier
    exact round2_idem _
  unfold cashOut
  rw [h]
  dsimp only
  rw [hp]
  dsimp only
  rw [if_neg (by rw [hco]; exact Bool.false_ne_true)]
  rw [if_neg (by push_neg; exact ⟨hm, hs⟩)]
  rw [hid, hb]
  rfl

/-- C5 witness: the spec's scenario — crash point `1.50`, player `"A"` bet
`10`, cash-out at multiplier `1.20` — returns a win of `12.00`. -/
theorem cashOut_win_settlement_witness :
    (cashOut sampleState "A" 200).2
      = .ok { win := true, payout := .fin 12, multiplier := 6/5 } := by
  have h := cashOut_win_settlement sampleState "A" 200 sampleRound
    { betAmount := .fin 10, cashedOut := false } 10 rfl rfl rfl rfl rfl
    (by norm_num [sampleRound, computeMultiplier, round2])
  rw [h]
  norm_num [sampleRound, computeMultiplier, round2]

/-- C3 counterexample: the claim says at most one settlement is ever
returned per player and any second `cashOut` yields `AlreadyCashedOut`.
After the crash, player `"A"` (never cashed out) calls `cashOut` twice and
receives a Loss settlement BOTH times — the second call does not fail with
`AlreadyCashedOut`, because the loss path never sets the `cashedOut`
latch. -/
theorem cashOut_double_loss_returns_loss_again :
    (cashOut sampleState "A" 2000).2
      = .ok { win := false, payout := .fin 0, multiplier := 3/2 }
    ∧ (cashOut (cashOut sampleState "A" 2000).1 "A" 2001).2
      = .ok { win := false, payout := .fin 0, multiplier := 3/2 }
    ∧ (cashOut (cashOut sampleState "A" 2000).1 "A" 2001).2
      ≠ .error .alreadyCashedOut := by
  have h2 : (cashOut (cashOut sampleState "A" 2000).1 "A" 2001).2
      = .ok { win := false, payout := .fin 0, multiplier := 3/2 } := by
    norm_num +decide [cashOut, sampleState, sampleRound, computeMultiplier, round2,
                      markRoundCrashed, List.lookup]
  refine ⟨?_, h2, ?_⟩
  · norm_num +decide [cashOut, sampleState, sampleRound, computeMultiplier, round2,
                      markRoundCrashed, List.lookup]
  · rw [h2]
    exact fun hcontra => Except.noConfusion hcontra

/-- C3 (amended): the `cashedOut` flag is a one-way latch that is set only
by a winning settlement: any `cashOut` call for a player whose flag is set
fails with `AlreadyCashedOut` and changes nothing, and every Win settlement
leaves the player's flag set — so at most one Win is ever returned. A Loss
settlement does not set the flag, so calls after a Loss return Loss again
rather than `AlreadyCashedOut`. -/
theorem cashOut_win_latch (st : EngineState) (pid : String) (now : ℤ) :
    (∀ r pos, st.currentRound = some r → r.players.lookup pid = some pos →
      pos.cashedOut = true → cashOut st pid now = (st, .error .alreadyCashedOut))
    ∧ (∀ res, (cashOut st pid now).2 = .ok res → res.win = true →
        ∃ r' pos', (cashOut st pid now).1.currentRound = some r'
          ∧ r'.players.lookup pid = some pos' ∧ pos'.cashedOut = true) := by
  constructor
  · intro r pos h hp hco
    unfold cashOut
    rw [h]
    dsimp only
    rw [hp]
    dsimp only
    rw [if_pos hco]
  · intro res hok hwin
    unfold cashOut at hok ⊢
    generalize hcr : st.currentRound = cr at hok ⊢
    cases cr with
    | none => exact Except.noConfusion hok
    | some r =>
      dsimp only at hok ⊢
      generalize hpl : List.lookup pid r.players = pl at hok ⊢
      cases pl with
      | none => exact Except.noConfusion hok
      | some player =>
        dsimp only at hok ⊢
        by_cases c1 : player.cashedOut = true
        · rw [if_pos c1] at hok
          exact Except.noConfusion hok
        · rw [if_neg c1] at hok ⊢
          by_cases c2 : r.crashPoint ≤ computeMultiplier r.startedAt now
              ∨ r.status ≠ .running
          · rw [if_pos c2] at hok
            injection hok with hok2
            rw [← hok2] at hwin
            simp at hwin
          · rw [if_neg c2] at hok ⊢
            refine ⟨_, _, rfl, lookup_mapSet_self _ _ _, rfl⟩

/-- C3 witness: for a player whose `cashedOut` flag is set, `cashOut` fails
with `AlreadyCashedOut` and leaves the state untouched. -/
theorem cashOut_win_latch_witness :
    cashOut cashedState "A" 300 = (cashedState, .error .alreadyCashedOut) :=
  (cashOut_win_latch cashedState "A" 300).1
    { sampleRound with players := [("A", { betAmount := .fin 10, cashedOut := true })] }
    { betAmount := .fin 10, cashedOut := true } rfl rfl rfl

/-- C4 counterexample: the claim says `joinRound` fails with
`InvalidBetAmount` whenever the bet is not a finite positive number, naming
`Infinity` as an example. A bet of `+Infinity` passes the source's check
`!betAmount || isNaN(betAmount) || Number(betAmount) <= 0` and is inserted
into the player map. -/
theorem joinRound_accepts_infinite_bet :
    (joinRound sampleState "P" JSNum.posInf).2
      = .ok { roundId := "round-1", serverSeedHash := sampleHash "seed-1", startedAt := 0 }
    ∧ ((joinRound sampleState "P" JSNum.posInf).1.currentRound.map Round.players)
      = some [("A", { betAmount := .fin 10, cashedOut := false }),
              ("B", { betAmount := .fin 5, cashedOut := false }),
              ("P", { betAmount := JSNum.posInf, cashedOut := false })]
    ∧ (joinRound sampleState "P" JSNum.posInf).2
      ≠ .error EngineError.invalidBetAmount := by
  have h1 : (joinRound sampleState "P" JSNum.posInf).2
      = .ok { roundId := "round-1", serverSeedHash := sampleHash "seed-1", startedAt := 0 } := by
    norm_num +decide [joinRound, sampleState, sampleRound, jsFalsy, jsIsNaN, jsLeZero,
                      mapSet, List.lookup]
  refine ⟨h1, ?_, ?_⟩
  · norm_num +decide [joinRound, sampleState, sampleRound, jsFalsy, jsIsNaN, jsLeZero,
                      mapSet, List.lookup]
  · rw [h1]
    exact fun hcontra => Except.noConfusion hcontra

/-- C4 (amended): `joinRound` fails with `InvalidBetAmount` — inserting no
player position and leaving the state untouched — whenever the bet is
falsy (`0` or `NaN`), `NaN`, or `≤ 0` under JS comparison (zero, negative,
`-Infinity`); a bet of `+Infinity`, however, is not rejected. -/
theorem joinRound_invalidBetAmount (st : EngineState) (pid : String)
    (bet : JSNum) (r : Round) (h : st.currentRound = some r)
    (hs : r.status = .running) (hpid : pid ≠ "")
    (hbad : jsFalsy bet = true ∨ jsIsNaN bet = true ∨ jsLeZero bet = true) :
    joinRound st pid bet = (st, .error .invalidBetAmount) := by
  unfold joinRound
  rw [h]
  dsimp only
  rw [if_neg (by simp [hs]), if_neg hpid, if_pos hbad]

/-- C4 witness: a zero bet is rejected with `InvalidBetAmount` and the
state is unchanged. -/
theorem joinRound_invalidBetAmount_witness :
    joinRound sampleState "P" (JSNum.fin 0) = (sampleState, .error .invalidBetAmount) :=
  joinRound_invalidBetAmount sampleState "P" (JSNum.fin 0) sampleRound rfl rfl
    (by decide) (Or.inl (by norm_num [jsFalsy]))

/-- C10: the multiplier reported by `getRoundStatus` never exceeds the
round's crash point: a running round below the crash point reports the
fresh multiplier and changes nothing; the first query at or past the crash
point performs the crash transition and clamps the report to exactly
`crashPoint`; and every query on a crashed round reports exactly
`crashPoint`. -/
theorem getRoundStatus_multiplier_le_crashPoint (st : EngineState) (now : ℤ)
    (r : Round) (h : st.currentRound = some r) :
    (∀ rep, (getRoundStatus st now).2 = some rep → rep.multiplier ≤ r.crashPoint)
    ∧ (r.status = .crashed →
        getRoundStatus st now
          = (st, some { roundId := r.roundId
                        status := r.status
                        multiplier := r.crashPoint
                        startedAt := r.startedAt
                        endedAt := r.endedAt
                        serverSeedHash := r.serverSeedHash }))
    ∧ (r.status = .running → r.crashPoint ≤ computeMultiplier r.startedAt now →
        (∀ rep, (getRoundStatus st now).2 = some rep →
          rep.multiplier = r.crashPoint ∧ rep.status = .crashed)
        ∧ (∀ r', (getRoundStatus st now).1.currentRound = some r' →
            r'.status = .crashed))
    ∧ (r.status = .running → computeMultiplier r.startedAt now < r.crashPoint →
        getRoundStatus st now
          = (st, some { roundId := r.roundId
                        status := r.status
                        multiplier := computeMultiplier r.startedAt now
                        startedAt := r.startedAt
                        endedAt := r.endedAt
                        serverSeedHash := r.serverSeedHash })) := by
  unfold getRoundStatus
  rw [h]
  dsimp only
  by_cases hs : r.status = .running
  · rw [if_pos hs]
    by_cases hm : r.crashPoint ≤ computeMultiplier r.startedAt now
    · rw [if_pos hm]
      refine ⟨?_, ?_, ?_, ?_⟩
      · intro rep hrep
        injection hrep with hrep2
        rw [← hrep2]
        dsimp only
        rw [(markRoundCrashed_preserves_seed st.disposed r now).2.2]
      · intro hcrash
        rw [hs] at hcrash
        cases hcrash
      · intro _ _
        constructor
        · intro rep hrep
          injection hrep with hrep2
          rw [← hrep2]
          dsimp only
          exact ⟨(markRoundCrashed_preserves_seed st.disposed r now).2.2,
                 markRoundCrashed_status st.disposed r now⟩
        · intro r' hr'
          dsimp only at hr'
          injection hr' with hr2
          rw [← hr2]
          exact markRoundCrashed_status st.disposed r now
      · intro _ hlt
        exact absurd hm (not_le.mpr hlt)
    · rw [if_neg hm]
      refine ⟨?_, ?_, ?_, ?_⟩
      · intro rep hrep
        injection hrep with hrep2
        rw [← hrep2]
        exact le_of_lt (not_le.mp hm)
      · intro hcrash
        rw [hs] at hcrash
        cases hcrash
      · intro _ hge
        exact absurd hge hm
      · intro _ _
        rfl
  · rw [if_neg hs]
    have hcrashed : r.status = .crashed := by
      rcases hr : r.status with _ | _
      · exact absurd hr hs
      · rfl
    refine ⟨?_, ?_, ?_, ?_⟩
    · intro rep hrep
      injection hrep with hrep2
      rw [← hrep2]
    · intro _
      rfl
    · intro hrun
      exact absurd hrun hs
    · intro hrun
      exact absurd hrun hs

/-- C10 witness: querying the sample round at `t = 200` reports the
running status with multiplier `1.20`, below the crash point `1.50`, and
leaves the state untouched. -/
theorem getRoundStatus_witness :
    getRoundStatus sampleState 200
      = (sampleState, some { roundId := "round-1"
                             status := .running
                             multiplier := 6/5
                             startedAt := 0
                             endedAt := none
                             serverSeedHash := sampleHash "seed-1" }) := by
  have h := (getRoundStatus_multiplier_le_crashPoint sampleState 200 sampleRound
      rfl).2.2.2 rfl (by norm_num [sampleRound, computeMultiplier, round2])
  rw [h]
  norm_num [sampleRound, computeMultiplier, round2]

end FlyZed
